import Mathlib

/-!
# Verification of the tts-cr-agent frontend

A shallow embedding, in Lean 4, of the state-manipulating parts of the
tts-cr-agent single-page frontend: the auth store and shop store (zustand),
the shared axios client's request/response interceptors, the Copilot chat
page (`handleSend`, SSE stream processing, `sanitizePartialMarkdown`), and
the market-intelligence pagination.  Browser storage is modelled as a map
from keys to optional string values; network calls are modelled by passing
their outcome as an explicit argument; JS string truthiness (`""` and
`null`/`undefined` are falsy) is modelled explicitly.
-/

set_option autoImplicit false

namespace TtsCrAgent

/-! ## Browser local storage -/

/-- `window.localStorage`: a map from keys to stored string values. -/
def LocalStorage : Type := String → Option String

/-- `localStorage.getItem(key)`. -/
def getItem (ls : LocalStorage) (key : String) : Option String := ls key

/-- `localStorage.setItem(key, value)`. -/
def setItem (ls : LocalStorage) (key value : String) : LocalStorage :=
  fun k => if k = key then some value else ls k

/-- `localStorage.removeItem(key)`. -/
def removeItem (ls : LocalStorage) (key : String) : LocalStorage :=
  fun k => if k = key then none else ls k

/-- A storage with nothing stored. -/
def emptyStorage : LocalStorage := fun _ => none

/-- JS truthiness of a `string | null` value: `null`, `undefined` and the
empty string are falsy, every other string is truthy. -/
def truthyStr : Option String → Bool
  | none => false
  | some s => s ≠ ""

/-! ## `src/frontend/src/stores/authStore.ts` -/

/-- The user's subscription plan (`PlanType` in `types/index.ts`). -/
inductive PlanType
  | free | starter | pro | enterprise
deriving DecidableEq, Repr

/-- The `User` record of `types/index.ts`. -/
structure User where
  id : String
  email : String
  company_name : Option String
  plan : PlanType
  created_at : String
deriving DecidableEq, Repr

/-- The data fields of the zustand auth store. -/
structure AuthState where
  user : Option User
  token : Option String
  isAuthenticated : Bool
deriving DecidableEq, Repr

/-- The initial state of a freshly created auth store. -/
def initialAuthState : AuthState :=
  { user := none, token := none, isAuthenticated := false }

/-- `setAuth(user, token)`: stores the token under `"access_token"` and sets
the store fields. -/
def setAuth (_s : AuthState) (ls : LocalStorage) (user : User) (token : String) :
    AuthState × LocalStorage :=
  ({ user := some user, token := some token, isAuthenticated := true },
   setItem ls "access_token" token)

/-- `logout()`: removes the stored token and clears the store fields. -/
def logout (_s : AuthState) (ls : LocalStorage) : AuthState × LocalStorage :=
  ({ user := none, token := none, isAuthenticated := false },
   removeItem ls "access_token")

/-- `hydrate()`: reads `"access_token"`; `if (token)` is a JS truthiness
test, so the empty string behaves like an absent key. -/
def hydrate (s : AuthState) (ls : LocalStorage) : AuthState × LocalStorage :=
  let token := getItem ls "access_token"
  if truthyStr token then
    ({ s with token := token, isAuthenticated := true }, ls)
  else
    (s, ls)

/-! ## `src/frontend/src/services/api.ts` -/

/-- The slice of an axios request config the interceptor touches. -/
structure RequestConfig where
  url : Option String
  authorization : Option String
deriving DecidableEq, Repr

/-- The request interceptor: `const token = localStorage.getItem("access_token");
if (token) { config.headers.Authorization = `Bearer ${token}` }`.  The
`if (token)` is a JS truthiness test. -/
def requestInterceptor (ls : LocalStorage) (config : RequestConfig) : RequestConfig :=
  let token := getItem ls "access_token"
  match token with
  | some t => if t ≠ "" then { config with authorization := some ("Bearer " ++ t) } else config
  | none => config

/-- The slice of an axios error object the response interceptor reads:
`error.response?.status` and `error.config?.url`. -/
structure AxiosError where
  status : Option Nat
  url : Option String
deriving DecidableEq, Repr

/-- The observable outcome of the response interceptor's error handler:
the storage afterwards, where the browser was navigated (if anywhere), and
whether the promise rejects to the caller. -/
structure ErrorHandlerResult where
  storage : LocalStorage
  navigatedTo : Option String
  rejected : Bool

/-- JS `s.endsWith(suffix)`: the suffix test, on the character sequences of
the two strings. -/
def jsEndsWith (s suffix : String) : Bool :=
  suffix.toList.isSuffixOf s.toList

/-- The response interceptor's error handler: on a 401 whose URL does not
end with `"/auth/me"` it removes the stored token and navigates to
`/login`; in every case it returns `Promise.reject(error)`. -/
def responseInterceptorError (ls : LocalStorage) (e : AxiosError) : ErrorHandlerResult :=
  if e.status = some 401 then
    let url := (e.url).getD ""
    if ¬ jsEndsWith url "/auth/me" then
      { storage := removeItem ls "access_token", navigatedTo := some "/login", rejected := true }
    else
      { storage := ls, navigatedTo := none, rejected := true }
  else
    { storage := ls, navigatedTo := none, rejected := true }

/-! ## `shopStore` (zustand shop store) -/

/-- The `Shop` record of `types/index.ts`. -/
structure Shop where
  id : String
  shop_name : String
  tts_shop_id : Option String
  market : Option String
  category : Option String
  is_active : Bool
  connected_at : String
deriving DecidableEq, Repr

/-- The data fields of the zustand shop store. -/
structure ShopStoreState where
  shops : List Shop
  loading : Bool
  selectedShopId : Option String
deriving DecidableEq, Repr

/-- `fetchShops()`, modelled as a function of the outcome of
`api.get("/shops/")` (`some data` on success, `none` on rejection), giving
the store state after the call settles.  The guard
`if (!get().selectedShopId && data.length > 0)` is a JS truthiness test on
the current selection. -/
def fetchShops (s : ShopStoreState) (response : Option (List Shop)) : ShopStoreState :=
  match response with
  | none => { s with loading := false }
  | some data =>
    let s1 : ShopStoreState := { s with shops := data, loading := false }
    if ¬ truthyStr s1.selectedShopId then
      match data with
      | [] => s1
      | d :: _ => { s1 with selectedShopId := some d.id }
    else s1

/-- `createShop(shopData)`, modelled as a function of the outcome of
`api.post("/shops/", shopData)`: on rejection the exception propagates
before any `set`, so the state is unchanged; on success the new shop is
prepended and, `if (!get().selectedShopId)` (JS truthiness), selected. -/
def createShop (s : ShopStoreState) (response : Option Shop) : ShopStoreState :=
  match response with
  | none => s
  | some data =>
    let s1 : ShopStoreState := { s with shops := data :: s.shops }
    if ¬ truthyStr s1.selectedShopId then
      { s1 with selectedShopId := some data.id }
    else s1

/-- `deleteShop(id)`, modelled as a function of whether
`api.delete(`/shops/${id}`)` resolved: on rejection the exception
propagates before the `set`, so the state is unchanged. -/
def deleteShop (s : ShopStoreState) (id : String) (requestOk : Bool) : ShopStoreState :=
  if requestOk then
    { s with
      shops := s.shops.filter (fun shop => shop.id ≠ id),
      selectedShopId := if s.selectedShopId = some id then none else s.selectedShopId }
  else s

/-! ## `MarketIntelligence.tsx` pagination -/

/-- `const PAGE_SIZE = 10`. -/
def PAGE_SIZE : Nat := 10

/-- `Math.ceil(total / PAGE_SIZE)` for a natural `total`. -/
def totalPages (total : Nat) : Nat := (total + PAGE_SIZE - 1) / PAGE_SIZE

/-- What `renderPagination` puts on the screen: the disabled state of the
two buttons and the page cap shown as `page / cap`. -/
structure PaginationControls where
  prevDisabled : Bool
  nextDisabled : Bool
  maxPageShown : Nat
deriving DecidableEq, Repr

/-- `renderPagination(total)`: returns `none` when it renders nothing
(`totalPages <= 1`), otherwise the controls for the current `page`. -/
def renderPagination (page total : Nat) : Option PaginationControls :=
  let tp := totalPages total
  if tp ≤ 1 then none
  else some
    { prevDisabled := page ≤ 1
      nextDisabled := page ≥ min tp 250
      maxPageShown := min tp 250 }

/-- Clicking the next-page button: `onClick={() => setPage(page + 1)}`,
reachable only while the button is enabled. -/
def nextPageClick (page total : Nat) : Nat :=
  match renderPagination page total with
  | some c => if c.nextDisabled then page else page + 1
  | none => page

/-! ## `Copilot` page: `sanitizePartialMarkdown`

JS strings are modelled as `List Char` here, because the page inspects and
splits string contents.  The three regex counts are modelled directly:
`/\*\*/g` and `/```/g` count non-overlapping left-to-right greedy matches;
`/(?<!\*)\*(?!\*)/g` (and its backtick twin) count positions holding the
character with neither neighbour equal to it. -/

/-- A JS string, as its character sequence. -/
abbrev JSStr := List Char

/-- Number of matches of a two-character run `cc` under a global regex:
greedy, non-overlapping, left to right (JS `text.match(/cc/g).length`). -/
def countPairs (c : Char) : JSStr → Nat
  | a :: b :: rest =>
    if a = c ∧ b = c then countPairs c rest + 1 else countPairs c (b :: rest)
  | _ => 0

/-- Number of matches of a three-character run `ccc` under a global regex:
greedy, non-overlapping, left to right (JS `text.match(/ccc/g).length`). -/
def countTriples (c : Char) : JSStr → Nat
  | a :: b :: d :: rest =>
    if a = c ∧ b = c ∧ d = c then countTriples c rest + 1
    else countTriples c (b :: d :: rest)
  | _ => 0

/-- Helper for `countSingles`: `prev` is the character just before the
current position (`none` at the start of the string). -/
def countSinglesAux (c : Char) (prev : Option Char) : JSStr → Nat
  | [] => 0
  | a :: rest =>
    (if a = c ∧ prev ≠ some c ∧ rest.head? ≠ some c then 1 else 0) +
      countSinglesAux c (some a) rest

/-- Number of occurrences of `c` with neither neighbour equal to `c`
(JS `text.match(/(?<!c)c(?!c)/g).length`, lookarounds not consuming). -/
def countSingles (c : Char) (s : JSStr) : Nat := countSinglesAux c none s

/-- The intermediate string after the bold check of
`sanitizePartialMarkdown` (`if (boldCount % 2 !== 0) text += "**"`). -/
def sanitizeBold (text : JSStr) : JSStr :=
  if countPairs '*' text % 2 ≠ 0 then text ++ ['*', '*'] else text

/-- ... after the italic check (`if (italicCount % 2 !== 0) text += "*"`),
the count taken on the string the bold check produced. -/
def sanitizeItalic (text : JSStr) : JSStr :=
  let t := sanitizeBold text
  if countSingles '*' t % 2 ≠ 0 then t ++ ['*'] else t

/-- ... after the code-fence check
(`if (codeBlockCount % 2 !== 0) text += "\n```"`). -/
def sanitizeFence (text : JSStr) : JSStr :=
  let t := sanitizeItalic text
  if countTriples '`' t % 2 ≠ 0 then t ++ ['\n', '`', '`', '`'] else t

/-- `sanitizePartialMarkdown(text)`: the code-fence result with the inline
code check (`if (inlineCodeCount % 2 !== 0) text += "`"`) applied. -/
def sanitizePartialMarkdown (text : JSStr) : JSStr :=
  let t := sanitizeFence text
  if countSingles '`' t % 2 ≠ 0 then t ++ ['`'] else t

/-! ## `Copilot` page: SSE stream processing inside `handleSend` -/

/-- A chat message (`CopilotMessage` in `types/index.ts`). -/
inductive Role
  | user | assistant
deriving DecidableEq, Repr

/-- A chat message (`CopilotMessage` in `types/index.ts`). -/
structure CopilotMessage where
  role : Role
  content : JSStr
deriving DecidableEq, Repr

/-- The event a successfully `JSON.parse`d `data: ` payload encodes, as
the `handleSend` loop discriminates it on its `type` field.  `other`
stands for a parsed object whose `type` is none of the three. -/
inductive SSEData
  | text (content : JSStr)
  | sources (sources : List JSStr)
  | conversationId (id : JSStr)
  | other
deriving DecidableEq, Repr

/-- The outcome of `JSON.parse` on a payload string: `none` when it
throws.  The stream loop is parametric in this function. -/
abbrev SSEParser := JSStr → Option SSEData

/-- The mutable state the stream loop updates: the accumulated
`assistantContent` and the `setSources` / `setActiveConvId` /
`setStreaming` targets. -/
structure StreamState where
  assistantContent : JSStr
  sources : List JSStr
  activeConvId : Option JSStr
  streaming : Bool
deriving DecidableEq, Repr

/-- `"data: "`. -/
def dataMarker : JSStr := ['d', 'a', 't', 'a', ':', ' ']

/-- One iteration of `for (const line of lines)`: lines not starting with
`"data: "` are skipped, the rest have their payload (`line.slice(6)`)
parsed; a parse failure is swallowed by the `catch`. -/
def processLine (parse : SSEParser) (st : StreamState) (line : JSStr) : StreamState :=
  if dataMarker.isPrefixOf line then
    match parse (line.drop 6) with
    | some (.text c) =>
      { st with
        streaming := if st.assistantContent = [] then true else st.streaming,
        assistantContent := st.assistantContent ++ c }
    | some (.sources ss) => { st with sources := ss }
    | some (.conversationId id) => { st with activeConvId := some id }
    | some .other => st
    | none => st
  else st

/-- JS `chunk.split("\n")` on a single-character separator. -/
def splitLines (chunk : JSStr) : List JSStr :=
  List.splitOn '\n' chunk

/-- Processing of one decoded chunk: split on `"\n"`, handle each line. -/
def processChunk (parse : SSEParser) (st : StreamState) (chunk : JSStr) : StreamState :=
  (splitLines chunk).foldl (processLine parse) st

/-- The whole `while (true)` read loop over the chunks the reader
delivers. -/
def processChunks (parse : SSEParser) (st : StreamState) (chunks : List JSStr) : StreamState :=
  chunks.foldl (processChunk parse) st

/-- The `content` fields of the `type: "text"` events carried by the
`data: `-prefixed lines of one chunk, in order. -/
def textsOfChunk (parse : SSEParser) (chunk : JSStr) : List JSStr :=
  (splitLines chunk).filterMap fun line =>
    if dataMarker.isPrefixOf line then
      match parse (line.drop 6) with
      | some (.text c) => some c
      | _ => none
    else none

/-- The `type: "text"` contents of a whole chunk sequence, in arrival
order. -/
def textsOfChunks (parse : SSEParser) (chunks : List JSStr) : List JSStr :=
  chunks.flatMap (textsOfChunk parse)

/-! ## `Copilot` page: `handleSend` -/

/-- JS `input.trim()`: strip whitespace from both ends. -/
def jsTrim (s : JSStr) : JSStr :=
  ((s.dropWhile Char.isWhitespace).reverse.dropWhile Char.isWhitespace).reverse

/-- The request body sent to both `/copilot/chat/stream` and the
synchronous `/copilot/chat` fallback. -/
structure ChatRequest where
  message : JSStr
  history : List CopilotMessage
  conversation_id : Option JSStr
deriving DecidableEq, Repr

/-- The response body of a successful synchronous `POST /copilot/chat`. -/
structure SyncChatResponse where
  reply : JSStr
  sources : Option (List JSStr)
  conversation_id : Option JSStr
deriving DecidableEq, Repr

/-- How the streaming request turns out: `ok chunks` is a stream read to
completion delivering these decoded chunks; `fail partialChunks` is any
failure — non-OK response, missing body reader, or an error thrown after
the given chunks were already processed (`[]` for an up-front failure). -/
inductive StreamResult
  | ok (chunks : List JSStr)
  | fail (readChunks : List JSStr)
deriving DecidableEq, Repr

/-- The outcomes of the network calls `handleSend` can make. -/
structure SendEnv where
  stream : StreamResult
  fallback : Option SyncChatResponse
deriving DecidableEq, Repr

/-- The Copilot page state `handleSend` reads and writes. -/
structure PageState where
  messages : List CopilotMessage
  input : JSStr
  loading : Bool
  streaming : Bool
  sources : List JSStr
  activeConvId : Option JSStr
deriving DecidableEq, Repr

/-- What one `handleSend` call did: which requests it issued (with which
bodies) and the page state once it settles. -/
structure SendTrace where
  streamRequest : Option ChatRequest
  fallbackRequest : Option ChatRequest
  final : PageState
deriving DecidableEq, Repr

/-- `messages.slice(-10)`: the last (up to) ten elements. -/
def lastTen (l : List CopilotMessage) : List CopilotMessage :=
  l.drop (l.length - 10)

/-- The fixed error text appended when the fallback call also fails. -/
def errorText : JSStr := "エラーが発生しました。もう一度お試しください。".toList

/-- `handleSend`, parametric in the JSON parser and the network outcomes.
Guard: `if (!input.trim() || loading) return`.  Both request bodies are
built from the pre-send closure values of `input`, `messages` and
`activeConvId`.  On a stream failure the single `api.post` fallback runs;
if it also fails only `setMessages` runs in the inner catch, so the
sources and conversation id keep whatever the partial stream set. -/
def handleSend (parse : SSEParser) (st : PageState) (env : SendEnv) : SendTrace :=
  if jsTrim st.input = [] ∨ st.loading then
    { streamRequest := none, fallbackRequest := none, final := st }
  else
    let newMessages := st.messages ++ [⟨Role.user, st.input⟩]
    let req : ChatRequest :=
      { message := st.input, history := lastTen st.messages, conversation_id := st.activeConvId }
    let s0 : StreamState :=
      { assistantContent := [], sources := [], activeConvId := st.activeConvId,
        streaming := st.streaming }
    match env.stream with
    | .ok chunks =>
      let fin := processChunks parse s0 chunks
      { streamRequest := some req, fallbackRequest := none,
        final :=
          { messages := newMessages ++ [⟨Role.assistant, fin.assistantContent⟩],
            input := [], loading := false, streaming := false,
            sources := fin.sources, activeConvId := fin.activeConvId } }
    | .fail partialChunks =>
      let fin := processChunks parse s0 partialChunks
      match env.fallback with
      | some r =>
        { streamRequest := some req, fallbackRequest := some req,
          final :=
            { messages := newMessages ++ [⟨Role.assistant, r.reply⟩],
              input := [], loading := false, streaming := false,
              sources := r.sources.getD [], activeConvId := r.conversation_id } }
      | none =>
        { streamRequest := some req, fallbackRequest := some req,
          final :=
            { messages := newMessages ++ [⟨Role.assistant, errorText⟩],
              input := [], loading := false, streaming := false,
              sources := fin.sources, activeConvId := fin.activeConvId } }

/-! ## Shared concrete values for witnesses and counterexamples -/

/-- A concrete user for instantiating theorems. -/
def demoUser : User :=
  { id := "u1", email := "u1@example.com", company_name := none,
    plan := PlanType.free, created_at := "2024-01-01" }

/-- A concrete shop with id `"a"`. -/
def shopA : Shop :=
  { id := "a", shop_name := "Shop A", tts_shop_id := none, market := none,
    category := none, is_active := true, connected_at := "2024-01-01" }

/-- A concrete shop with id `"b"`. -/
def shopB : Shop :=
  { id := "b", shop_name := "Shop B", tts_shop_id := some "tts-b", market := some "JP",
    category := none, is_active := false, connected_at := "2024-02-01" }

/-- A storage holding the empty string under `"access_token"`. -/
def emptyTokenStorage : LocalStorage := setItem emptyStorage "access_token" ""

/-- A concrete JSON-payload parser for instantiating the stream theorems:
payload `A`/`B`/`C` are text events, `S` a sources event, `I` a
conversation-id event, everything else fails to parse. -/
def demoParse : SSEParser := fun payload =>
  if payload = "A".toList then some (SSEData.text "x".toList)
  else if payload = "B".toList then some (SSEData.text "y".toList)
  else if payload = "C".toList then some (SSEData.text "z".toList)
  else if payload = "S".toList then some (SSEData.sources ["s1".toList])
  else if payload = "I".toList then some (SSEData.conversationId "c9".toList)
  else none

/-- A concrete page state about to send `"hi"`. -/
def demoPage : PageState :=
  { messages := [], input := "hi".toList, loading := false, streaming := false,
    sources := [], activeConvId := none }

/-- A fresh stream state for instantiating the per-line lemmas. -/
def demoStreamState : StreamState :=
  { assistantContent := [], sources := [], activeConvId := none, streaming := false }

/-- Twelve prior messages, to exercise the history trimming. -/
def msgs12 : List CopilotMessage := List.replicate 12 ⟨Role.user, ['m']⟩

/-! ## Theorems -/

/-- **C3** (counterexample): when local storage holds the *empty string*
under `"access_token"`, the key is present, yet `hydrate` on a fresh store
leaves `isAuthenticated` false and `token` null, because `if (token)` is a
JS truthiness test.  This refutes "hydrate sets `isAuthenticated` to true
and `token` to the stored value exactly when the key is present". -/
theorem hydrate_empty_token_cex :
    getItem emptyTokenStorage "access_token" = some "" ∧
    (hydrate initialAuthState emptyTokenStorage).1.isAuthenticated = false ∧
    (hydrate initialAuthState emptyTokenStorage).1.token = none := by
  decide

/-- **C3** (amended): session state round-trips through local storage;
`setAuth` stores the token and authenticates, `logout` removes the key and
clears the state, and on a fresh store `hydrate` sets `isAuthenticated`
and `token` exactly when the key is present *with a non-empty value*,
leaving the state unchanged when the key is absent or holds `""`. -/
theorem authStore_roundtrip (s : AuthState) (ls : LocalStorage) (u : User) (t : String) :
    (getItem (setAuth s ls u t).2 "access_token" = some t ∧
      (setAuth s ls u t).1 = { user := some u, token := some t, isAuthenticated := true }) ∧
    (getItem (logout s ls).2 "access_token" = none ∧
      (logout s ls).1 = { user := none, token := none, isAuthenticated := false }) ∧
    (∀ v, getItem ls "access_token" = some v → v ≠ "" →
      hydrate initialAuthState ls =
        ({ user := none, token := some v, isAuthenticated := true }, ls)) ∧
    (getItem ls "access_token" = none → hydrate initialAuthState ls = (initialAuthState, ls)) ∧
    (getItem ls "access_token" = some "" → hydrate initialAuthState ls = (initialAuthState, ls)) := by
  refine ⟨⟨?_, rfl⟩, ⟨?_, rfl⟩, ?_, ?_, ?_⟩
  · simp [getItem, setAuth, setItem]
  · simp [getItem, logout, removeItem]
  · intro v hv hne
    simp [hydrate, getItem] at hv ⊢
    simp [hv, truthyStr, hne, initialAuthState]
  · intro h
    simp [hydrate, getItem] at h ⊢
    simp [h, truthyStr]
  · intro h
    simp [hydrate, getItem] at h ⊢
    simp [h, truthyStr]

/-- **C3** (witness): the round-trip theorem applied at concrete states,
users, tokens and storages. -/
theorem authStore_roundtrip_witness :
    (getItem (setAuth initialAuthState emptyStorage demoUser "tok").2 "access_token" = some "tok" ∧
      (setAuth initialAuthState emptyStorage demoUser "tok").1 =
        { user := some demoUser, token := some "tok", isAuthenticated := true }) ∧
    (hydrate initialAuthState (setItem emptyStorage "access_token" "tok") =
      ({ user := none, token := some "tok", isAuthenticated := true },
        setItem emptyStorage "access_token" "tok")) ∧
    (hydrate initialAuthState emptyStorage = (initialAuthState, emptyStorage)) ∧
    (hydrate initialAuthState emptyTokenStorage = (initialAuthState, emptyTokenStorage)) := by
  refine ⟨⟨?_, ?_⟩, ?_, ?_, ?_⟩
  · exact (authStore_roundtrip initialAuthState emptyStorage demoUser "tok").1.1
  · exact (authStore_roundtrip initialAuthState emptyStorage demoUser "tok").1.2
  · exact (authStore_roundtrip initialAuthState (setItem emptyStorage "access_token" "tok")
      demoUser "tok").2.2.1 "tok" (by decide) (by decide)
  · exact (authStore_roundtrip initialAuthState emptyStorage demoUser "tok").2.2.2.1 (by decide)
  · exact (authStore_roundtrip initialAuthState emptyTokenStorage demoUser "tok").2.2.2.2 (by decide)

/-- **C4** (counterexample): when `"access_token"` is present but holds the
empty string, the interceptor leaves the request unmodified — `if (token)`
is a JS truthiness test — refuting "…exactly when that key is present". -/
theorem requestInterceptor_empty_token_cex :
    getItem emptyTokenStorage "access_token" = some "" ∧
    requestInterceptor emptyTokenStorage { url := none, authorization := none } =
      { url := none, authorization := none } := by
  decide

/-- **C4** (amended): every request through the shared axios client carries
`Authorization: Bearer <token>` exactly when `"access_token"` is present
with a non-empty value; when the key is absent, or holds the empty string,
the request is left unmodified. -/
theorem requestInterceptor_spec (ls : LocalStorage) (config : RequestConfig) :
    (∀ t, getItem ls "access_token" = some t → t ≠ "" →
      requestInterceptor ls config = { config with authorization := some ("Bearer " ++ t) }) ∧
    (getItem ls "access_token" = none → requestInterceptor ls config = config) ∧
    (getItem ls "access_token" = some "" → requestInterceptor ls config = config) := by
  refine ⟨?_, ?_, ?_⟩
  · intro t ht hne
    simp [requestInterceptor, getItem] at ht ⊢
    simp [ht, hne]
  · intro h
    simp [requestInterceptor, getItem] at h ⊢
    simp [h]
  · intro h
    simp [requestInterceptor, getItem] at h ⊢
    simp [h]

/-- **C4** (witness): the interceptor theorem applied at a stored non-empty
token, an absent key, and a stored empty token. -/
theorem requestInterceptor_spec_witness :
    requestInterceptor (setItem emptyStorage "access_token" "tok")
        { url := some "/shops/", authorization := none } =
      { url := some "/shops/", authorization := some "Bearer tok" } ∧
    requestInterceptor emptyStorage { url := some "/shops/", authorization := none } =
      { url := some "/shops/", authorization := none } ∧
    requestInterceptor emptyTokenStorage { url := some "/shops/", authorization := none } =
      { url := some "/shops/", authorization := none } := by
  refine ⟨?_, ?_, ?_⟩
  · exact (requestInterceptor_spec (setItem emptyStorage "access_token" "tok")
      { url := some "/shops/", authorization := none }).1 "tok" (by decide) (by decide)
  · exact (requestInterceptor_spec emptyStorage
      { url := some "/shops/", authorization := none }).2.1 (by decide)
  · exact (requestInterceptor_spec emptyTokenStorage
      { url := some "/shops/", authorization := none }).2.2 (by decide)

/-- **C5**: a 401 whose URL does not end with `"/auth/me"` clears the
stored token (other keys untouched) and navigates to `/login`; a 401 on a
URL ending with `"/auth/me"` leaves the storage untouched and does not
navigate; and in every case the error is propagated to the caller. -/
theorem responseInterceptor_spec (ls : LocalStorage) (e : AxiosError) :
    (responseInterceptorError ls e).rejected = true ∧
    (e.status = some 401 → jsEndsWith ((e.url).getD "") "/auth/me" = false →
      getItem (responseInterceptorError ls e).storage "access_token" = none ∧
      (∀ k, k ≠ "access_token" → (responseInterceptorError ls e).storage k = ls k) ∧
      (responseInterceptorError ls e).navigatedTo = some "/login") ∧
    (e.status = some 401 → jsEndsWith ((e.url).getD "") "/auth/me" = true →
      (responseInterceptorError ls e).storage = ls ∧
      (responseInterceptorError ls e).navigatedTo = none) ∧
    (e.status ≠ some 401 →
      (responseInterceptorError ls e).storage = ls ∧
      (responseInterceptorError ls e).navigatedTo = none) := by
  refine ⟨?_, ?_, ?_, ?_⟩
  · unfold responseInterceptorError
    dsimp only
    split
    · split <;> rfl
    · rfl
  · intro h401 hurl
    simp [responseInterceptorError, h401, hurl, getItem, removeItem]
    intro k hk
    simp [hk]
  · intro h401 hurl
    simp [responseInterceptorError, h401, hurl]
  · intro h401
    simp [responseInterceptorError, h401]

/-- **C5** (witness): the interceptor theorem applied to a 401 on
`/shops/`, a 401 on `/auth/me`, and a network error without a status. -/
theorem responseInterceptor_spec_witness :
    ((responseInterceptorError emptyTokenStorage
        { status := some 401, url := some "/api/v1/shops/" }).navigatedTo = some "/login" ∧
      getItem (responseInterceptorError emptyTokenStorage
        { status := some 401, url := some "/api/v1/shops/" }).storage "access_token" = none) ∧
    ((responseInterceptorError emptyTokenStorage
        { status := some 401, url := some "/api/v1/auth/me" }).storage = emptyTokenStorage ∧
      (responseInterceptorError emptyTokenStorage
        { status := some 401, url := some "/api/v1/auth/me" }).navigatedTo = none) ∧
    (responseInterceptorError emptyTokenStorage { status := none, url := none }).rejected = true := by
  refine ⟨⟨?_, ?_⟩, ?_, ?_⟩
  · exact ((responseInterceptor_spec emptyTokenStorage
      { status := some 401, url := some "/api/v1/shops/" }).2.1 rfl (by decide)).2.2
  · exact ((responseInterceptor_spec emptyTokenStorage
      { status := some 401, url := some "/api/v1/shops/" }).2.1 rfl (by decide)).1
  · exact (responseInterceptor_spec emptyTokenStorage
      { status := some 401, url := some "/api/v1/auth/me" }).2.2.1 rfl (by decide)
  · exact (responseInterceptor_spec emptyTokenStorage { status := none, url := none }).1

/-- **C6**: a successful `deleteShop(id)` removes exactly the shops whose
id equals the argument (keeping the rest, in order), nulls the selection
only when it pointed at the deleted id, and changes nothing else; a
rejected DELETE leaves the entire store state unchanged. -/
theorem deleteShop_spec (s : ShopStoreState) (id : String) :
    (deleteShop s id true).shops = s.shops.filter (fun shop => shop.id ≠ id) ∧
    ((deleteShop s id true).shops).Sublist s.shops ∧
    (∀ shop, shop ∈ (deleteShop s id true).shops → shop.id ≠ id) ∧
    (∀ shop, shop ∈ s.shops → shop.id ≠ id → shop ∈ (deleteShop s id true).shops) ∧
    (deleteShop s id true).selectedShopId =
      (if s.selectedShopId = some id then none else s.selectedShopId) ∧
    (deleteShop s id true).loading = s.loading ∧
    deleteShop s id false = s := by
  refine ⟨by simp [deleteShop], ?_, ?_, ?_, by simp [deleteShop], by simp [deleteShop],
    by simp [deleteShop]⟩
  · simp only [deleteShop, if_true]
    exact List.filter_sublist _
  · intro shop hm
    simp [deleteShop, List.mem_filter] at hm
    exact hm.2
  · intro shop hm hne
    simp [deleteShop, List.mem_filter, hm, hne]

/-- **C6** (witness): deleting shop `"a"` from `[shopA, shopB]` with the
selection on `"a"`: only `shopB` remains, membership both ways, the
selection is nulled; a rejected DELETE changes nothing. -/
theorem deleteShop_spec_witness :
    ((deleteShop { shops := [shopA, shopB], loading := false, selectedShopId := some "a" }
        "a" true).shops =
      [shopA, shopB].filter (fun shop => shop.id ≠ "a") ∧
      shopB ∈ (deleteShop { shops := [shopA, shopB], loading := false, selectedShopId := some "a" }
        "a" true).shops ∧
      shopB.id ≠ "a" ∧
      (deleteShop { shops := [shopA, shopB], loading := false, selectedShopId := some "a" }
        "a" true).selectedShopId =
        (if (some "a" : Option String) = some "a" then none else some "a") ∧
      deleteShop { shops := [shopA, shopB], loading := false, selectedShopId := some "a" }
        "a" false =
        { shops := [shopA, shopB], loading := false, selectedShopId := some "a" }) := by
  have h := deleteShop_spec
    { shops := [shopA, shopB], loading := false, selectedShopId := some "a" } "a"
  refine ⟨h.1, ?_, ?_, h.2.2.2.2.1, h.2.2.2.2.2.2⟩
  · exact h.2.2.2.1 shopB (by decide) (by decide)
  · exact h.2.2.1 shopB (h.2.2.2.1 shopB (by decide) (by decide))

/-- **C7** (counterexample): the shop store *can* discard an existing
selection.  With the selection on the empty-string id — `!selectedShopId`
is a JS truthiness test — a successful `fetchShops` (resp. `createShop`)
overwrites it with the first fetched (resp. created) shop's id. -/
theorem shopStore_selection_cex :
    (fetchShops { shops := [], loading := false, selectedShopId := some "" }
        (some [shopA])).selectedShopId = some "a" ∧
    (createShop { shops := [], loading := false, selectedShopId := some "" }
        (some shopB)).selectedShopId = some "b" := by
  decide

/-- **C7** (amended): `fetchShops` and `createShop` set `selectedShopId`
only when it is currently null *or the empty string* (both JS-falsy); a
previously selected non-empty id survives both calls, after a successful
`fetchShops` of a non-empty list the selection is non-null, and after a
successful `createShop` the selection is non-null. -/
theorem shopStore_selection_spec (s : ShopStoreState) (data : List Shop) (newShop : Shop) :
    (∀ x, s.selectedShopId = some x → x ≠ "" →
      (fetchShops s (some data)).selectedShopId = some x ∧
      (createShop s (some newShop)).selectedShopId = some x ∧
      (fetchShops s none).selectedShopId = some x) ∧
    (s.selectedShopId = none →
      (∀ d rest, data = d :: rest → (fetchShops s (some data)).selectedShopId = some d.id) ∧
      (createShop s (some newShop)).selectedShopId = some newShop.id) ∧
    (data ≠ [] → (fetchShops s (some data)).selectedShopId ≠ none) ∧
    (createShop s (some newShop)).selectedShopId ≠ none := by
  refine ⟨?_, ?_, ?_, ?_⟩
  · intro x hx hne
    refine ⟨?_, ?_, ?_⟩
    · cases data <;> simp [fetchShops, hx, truthyStr, hne]
    · simp [createShop, hx, truthyStr, hne]
    · simp [fetchShops, hx]
  · intro hnone
    refine ⟨?_, ?_⟩
    · intro d rest hd
      subst hd
      simp [fetchShops, hnone, truthyStr]
    · simp [createShop, hnone, truthyStr]
  · intro hne
    cases hdata : data with
    | nil => exact absurd hdata hne
    | cons d rest =>
      cases hsel : s.selectedShopId with
      | none => simp [fetchShops, hsel, truthyStr]
      | some x =>
        simp only [fetchShops, hsel]
        split <;> simp
  · cases hsel : s.selectedShopId with
    | none => simp [createShop, hsel, truthyStr]
    | some x =>
      simp only [createShop, hsel]
      split <;> simp

/-- **C7** (witness): the amended selection spec applied to a store
holding the non-empty selection `"b"` (which survives a fetch and a
create) and to a fresh store with no selection (which adopts the first
fetched shop, resp. the created shop). -/
theorem shopStore_selection_spec_witness :
    ((fetchShops { shops := [], loading := true, selectedShopId := some "b" }
        (some [shopA])).selectedShopId = some "b" ∧
      (createShop { shops := [], loading := true, selectedShopId := some "b" }
        (some shopA)).selectedShopId = some "b") ∧
    ((fetchShops { shops := [], loading := true, selectedShopId := none }
        (some [shopA, shopB])).selectedShopId = some shopA.id ∧
      (createShop { shops := [], loading := true, selectedShopId := none }
        (some shopB)).selectedShopId = some shopB.id) ∧
    (fetchShops { shops := [], loading := true, selectedShopId := none }
        (some [shopA, shopB])).selectedShopId ≠ none := by
  have h1 := shopStore_selection_spec
    { shops := [], loading := true, selectedShopId := some "b" } [shopA] shopA
  have h2 := shopStore_selection_spec
    { shops := [], loading := true, selectedShopId := none } [shopA, shopB] shopB
  refine ⟨⟨?_, ?_⟩, ⟨?_, ?_⟩, ?_⟩
  · exact (h1.1 "b" rfl (by decide)).1
  · exact (h1.1 "b" rfl (by decide)).2.1
  · exact (h2.2.1 rfl).1 shopA [shopB] rfl
  · exact (h2.2.1 rfl).2
  · exact h2.2.2.1 (by decide)

/-- **C10**: pagination with page size 10 — nothing is rendered exactly
when `ceil(total/10) ≤ 1`; the previous button is disabled exactly when
`page ≤ 1`; the next button is disabled exactly when
`page ≥ min(ceil(total/10), 250)`; and clicking next from a page `≤ 250`
can never land past page 250. -/
theorem renderPagination_spec (page total : Nat) :
    (totalPages total ≤ 1 → renderPagination page total = none) ∧
    (1 < totalPages total → renderPagination page total ≠ none) ∧
    (∀ c, renderPagination page total = some c →
      (c.prevDisabled = true ↔ page ≤ 1) ∧
      (c.nextDisabled = true ↔ min (totalPages total) 250 ≤ page) ∧
      c.maxPageShown = min (totalPages total) 250 ∧
      c.maxPageShown ≤ 250) ∧
    (page ≤ 250 → nextPageClick page total ≤ 250) := by
  refine ⟨?_, ?_, ?_, ?_⟩
  · intro h
    simp [renderPagination, h]
  · intro h
    simp [renderPagination, Nat.not_le.2 h]
  · intro c hc
    unfold renderPagination at hc
    dsimp only at hc
    split at hc
    · simp at hc
    · obtain rfl := Option.some.inj hc
      refine ⟨by simp, by simp [ge_iff_le], rfl, Nat.min_le_right _ _⟩
  · intro hp
    by_cases h1 : totalPages total ≤ 1
    · simp [nextPageClick, renderPagination, h1]
      exact hp
    · by_cases h2 : min (totalPages total) 250 ≤ page
      · simp [nextPageClick, renderPagination, h1, h2]
        exact hp
      · simp [nextPageClick, renderPagination, h1, h2]
        have := Nat.min_le_right (totalPages total) 250
        omega

/-- **C10** (witness): the pagination spec applied concretely — with 5
items nothing renders; with 35 items on page 1 prev is disabled and next
is not; with a huge total the cap shown is 250 and clicking next from
page 250 stays at 250. -/
theorem renderPagination_spec_witness :
    renderPagination 1 5 = none ∧
    (∀ c, renderPagination 1 35 = some c →
      (c.prevDisabled = true ↔ (1 : Nat) ≤ 1)) ∧
    nextPageClick 250 99999 ≤ 250 := by
  refine ⟨?_, ?_, ?_⟩
  · exact (renderPagination_spec 1 5).1 (by decide)
  · intro c hc
    exact ((renderPagination_spec 1 35).2.2.1 c hc).1
  · exact (renderPagination_spec 250 99999).2.2.2 (by decide)

/-- Appending `**` to any string creates exactly one more greedy `**`
match: either it stands alone, or a trailing unpaired `*` pairs with the
first appended `*`, leaving the second one single. -/
theorem countPairs_append_pair (c : Char) :
    ∀ l : JSStr, countPairs c (l ++ [c, c]) = countPairs c l + 1
  | [] => by simp [countPairs]
  | [a] => by by_cases h : a = c <;> simp [countPairs, h]
  | a :: b :: rest => by
    by_cases h : a = c ∧ b = c
    · simp [countPairs, h, countPairs_append_pair c rest]
    · have ih := countPairs_append_pair c (b :: rest)
      simp only [List.cons_append] at ih ⊢
      rw [countPairs, countPairs]
      simp only [if_neg h]
      exact ih

/-- Appending `"\n```"` creates exactly one more greedy ``` ``` `` match:
the `'\n'` keeps the appended fence from merging with trailing
backticks. -/
theorem countTriples_append_fence :
    ∀ l : JSStr, countTriples '`' (l ++ ['\n', '`', '`', '`']) = countTriples '`' l + 1
  | [] => by decide
  | [a] => by simp [countTriples]
  | [a, b] => by simp [countTriples]
  | a :: b :: d :: rest => by
    by_cases h : a = '`' ∧ b = '`' ∧ d = '`'
    · simp [countTriples, h, countTriples_append_fence rest]
    · have ih := countTriples_append_fence (b :: d :: rest)
      simp only [List.cons_append] at ih ⊢
      rw [countTriples, countTriples]
      simp only [if_neg h]
      exact ih

/-- The bold check leaves the `**` count of its own output even. -/
theorem countPairs_sanitizeBold (text : JSStr) :
    countPairs '*' (sanitizeBold text) % 2 = 0 := by
  unfold sanitizeBold
  split
  · next h => rw [countPairs_append_pair]; omega
  · next h => omega

/-- The fence check leaves the ``` ``` `` count of its own output even. -/
theorem countTriples_sanitizeFence (text : JSStr) :
    countTriples '`' (sanitizeFence text) % 2 = 0 := by
  unfold sanitizeFence
  dsimp only
  split
  · next h => rw [countTriples_append_fence]; omega
  · next h => omega

/-- The bold stage appends at most the closer `**`. -/
theorem sanitizeBold_closers (text : JSStr) :
    ∃ cs : List JSStr, cs.Sublist [['*', '*']] ∧ cs.flatten.length ≤ 2 ∧
      sanitizeBold text = text ++ cs.flatten := by
  unfold sanitizeBold
  split
  · exact ⟨[['*', '*']], List.Sublist.refl _, by simp, by simp⟩
  · exact ⟨[], List.nil_sublist _, by simp, by simp⟩

/-- The italic stage appends at most one `**` and one `*` closer. -/
theorem sanitizeItalic_closers (text : JSStr) :
    ∃ cs : List JSStr, cs.Sublist [['*', '*'], ['*']] ∧ cs.flatten.length ≤ 3 ∧
      sanitizeItalic text = text ++ cs.flatten := by
  obtain ⟨cs, hsub, hlen, heq⟩ := sanitizeBold_closers text
  unfold sanitizeItalic
  dsimp only
  split
  · refine ⟨cs ++ [['*']], hsub.append (List.Sublist.refl _), ?_, ?_⟩
    · simp only [List.flatten_append]
      simp at hlen ⊢
      omega
    · rw [heq]
      simp [List.flatten_append, List.append_assoc]
  · exact ⟨cs, hsub.trans (List.sublist_append_left _ _), by omega, heq⟩

/-- The fence stage appends at most one closer of each earlier kind plus
one `"\n```"`. -/
theorem sanitizeFence_closers (text : JSStr) :
    ∃ cs : List JSStr, cs.Sublist [['*', '*'], ['*'], ['\n', '`', '`', '`']] ∧
      cs.flatten.length ≤ 7 ∧ sanitizeFence text = text ++ cs.flatten := by
  obtain ⟨cs, hsub, hlen, heq⟩ := sanitizeItalic_closers text
  unfold sanitizeFence
  dsimp only
  split
  · refine ⟨cs ++ [['\n', '`', '`', '`']], hsub.append (List.Sublist.refl _), ?_, ?_⟩
    · simp only [List.flatten_append]
      simp at hlen ⊢
      omega
    · rw [heq]
      simp [List.flatten_append, List.append_assoc]
  · exact ⟨cs, hsub.trans (List.sublist_append_left _ _), by omega, heq⟩

/-- `sanitizePartialMarkdown` appends at most one closer per delimiter
kind, in the order bold, italic, fence, inline code. -/
theorem sanitizePartialMarkdown_closers (text : JSStr) :
    ∃ cs : List JSStr, cs.Sublist [['*', '*'], ['*'], ['\n', '`', '`', '`'], ['`']] ∧
      cs.flatten.length ≤ 8 ∧ sanitizePartialMarkdown text = text ++ cs.flatten := by
  obtain ⟨cs, hsub, hlen, heq⟩ := sanitizeFence_closers text
  unfold sanitizePartialMarkdown
  dsimp only
  split
  · refine ⟨cs ++ [['`']], hsub.append (List.Sublist.refl _), ?_, ?_⟩
    · simp only [List.flatten_append]
      simp at hlen ⊢
      omega
    · rw [heq]
      simp [List.flatten_append, List.append_assoc]
  · exact ⟨cs, hsub.trans (List.sublist_append_left _ _), by omega, heq⟩

/-- **C8** (counterexample): on the input `"*"` the italic check appends a
`*`, producing `"**"` — a string in which the number of `**` occurrences
is **odd** (the appended closer created a bold delimiter), refuting "the
number of occurrences of each markdown delimiter … is even" for the
returned string. -/
theorem sanitizePartialMarkdown_cex :
    sanitizePartialMarkdown ['*'] = ['*', '*'] ∧
    countPairs '*' (sanitizePartialMarkdown ['*']) % 2 = 1 := by
  decide

/-- **C8** (amended): `sanitizePartialMarkdown` returns a string with the
input as a prefix, appending at most one closer per delimiter kind (at
most 8 characters, closers in the order `**`, `*`, `"\n```"`, `` ` ``);
the `**` count is even immediately after the bold check and the ```` ``` ````
count immediately after the fence check, but a later closer can make an
earlier count odd again, so the counts in the final string need not all be
even. -/
theorem sanitizePartialMarkdown_spec (text : JSStr) :
    text <+: sanitizePartialMarkdown text ∧
    (∃ cs : List JSStr,
      cs.Sublist [['*', '*'], ['*'], ['\n', '`', '`', '`'], ['`']] ∧
      sanitizePartialMarkdown text = text ++ cs.flatten) ∧
    (sanitizePartialMarkdown text).length ≤ text.length + 8 ∧
    countPairs '*' (sanitizeBold text) % 2 = 0 ∧
    countTriples '`' (sanitizeFence text) % 2 = 0 := by
  obtain ⟨cs, hsub, hlen, heq⟩ := sanitizePartialMarkdown_closers text
  refine ⟨⟨cs.flatten, heq.symm⟩, ⟨cs, hsub, heq⟩, ?_,
    countPairs_sanitizeBold text, countTriples_sanitizeFence text⟩
  rw [heq]
  simp only [List.length_append]
  omega

/-- Across any run of SSE lines, the accumulated assistant content grows
by exactly the concatenation of the `text` contents, in order. -/
theorem foldl_processLine_content (parse : SSEParser) :
    ∀ (lines : List JSStr) (st : StreamState),
      (lines.foldl (processLine parse) st).assistantContent =
        st.assistantContent ++
          (lines.filterMap fun line =>
            if dataMarker.isPrefixOf line then
              match parse (line.drop 6) with
              | some (.text c) => some c
              | _ => none
            else none).flatten
  | [], st => by simp
  | line :: rest, st => by
    rw [List.foldl_cons, foldl_processLine_content parse rest, List.filterMap_cons]
    by_cases hp : dataMarker.isPrefixOf line
    · cases hparse : parse (line.drop 6) with
      | none => simp [processLine, hp, hparse]
      | some d =>
        cases d with
        | text c => simp [processLine, hp, hparse]
        | sources ss => simp [processLine, hp, hparse]
        | conversationId i => simp [processLine, hp, hparse]
        | other => simp [processLine, hp, hparse]
    · simp [processLine, hp]

/-- Chunk-level version of `foldl_processLine_content`. -/
theorem processChunk_content (parse : SSEParser) (st : StreamState) (chunk : JSStr) :
    (processChunk parse st chunk).assistantContent =
      st.assistantContent ++ (textsOfChunk parse chunk).flatten := by
  unfold processChunk textsOfChunk
  exact foldl_processLine_content parse (splitLines chunk) st

/-- Whole-stream version: the assistant content after the read loop is the
initial content followed by every `text` event's content, in arrival
order. -/
theorem processChunks_content (parse : SSEParser) :
    ∀ (chunks : List JSStr) (st : StreamState),
      (processChunks parse st chunks).assistantContent =
        st.assistantContent ++ (textsOfChunks parse chunks).flatten
  | [], st => by simp [processChunks, textsOfChunks]
  | chunk :: rest, st => by
    unfold processChunks textsOfChunks
    rw [List.foldl_cons, List.flatMap_cons]
    have ih := processChunks_content parse rest (processChunk parse st chunk)
    unfold processChunks textsOfChunks at ih
    rw [ih, processChunk_content, List.flatten_append, List.append_assoc]

/-- **C2**: on a stream read to completion, the assistant message appended
at the end is exactly the concatenation, in arrival order, of the
`content` fields of the `type: "text"` events carried by `data: `-prefixed
lines; `sources` and `conversation_id` events update only the sources
list, resp. the active conversation id; lines without the `data: ` prefix
and unparseable payloads leave the state unchanged (which is what skips an
event line split across two chunks: neither fragment is a parseable
`data: ` line). -/
theorem sse_stream_spec (parse : SSEParser) (st : PageState) (env : SendEnv)
    (chunks : List JSStr) :
    (¬(jsTrim st.input = [] ∨ st.loading = true) → env.stream = StreamResult.ok chunks →
      (handleSend parse st env).final.messages =
        (st.messages ++ [⟨Role.user, st.input⟩]) ++
          [⟨Role.assistant, (textsOfChunks parse chunks).flatten⟩]) ∧
    (∀ s line, ¬ dataMarker.isPrefixOf line = true → processLine parse s line = s) ∧
    (∀ s line, dataMarker.isPrefixOf line = true → parse (line.drop 6) = none →
      processLine parse s line = s) ∧
    (∀ s line ss, dataMarker.isPrefixOf line = true →
      parse (line.drop 6) = some (SSEData.sources ss) →
      processLine parse s line = { s with sources := ss }) ∧
    (∀ s line i, dataMarker.isPrefixOf line = true →
      parse (line.drop 6) = some (SSEData.conversationId i) →
      processLine parse s line = { s with activeConvId := some i }) := by
  refine ⟨?_, ?_, ?_, ?_, ?_⟩
  · intro hguard hstream
    unfold handleSend
    rw [if_neg hguard, hstream]
    dsimp only
    rw [processChunks_content]
    simp
  · intro s line hp
    simp [processLine, hp]
  · intro s line hp hparse
    simp [processLine, hp, hparse]
  · intro s line ss hp hparse
    simp [processLine, hp, hparse]
  · intro s line i hp hparse
    simp [processLine, hp, hparse]

/-- **C2** (witness): the stream spec applied to a concrete two-chunk
stream in which the line `data: B` is split across the chunk boundary:
the final assistant message is `"xz"` — the split event is skipped, its
first fragment being an unparseable `data: ` line and its second not
starting with `data: ` — and the per-line skip/sources/conversation-id
conclusions at concrete lines. -/
theorem sse_stream_spec_witness :
    (handleSend demoParse demoPage
        { stream := StreamResult.ok ["data: A\nda".toList, "ta: B\ndata: C".toList],
          fallback := none }).final.messages =
      [⟨Role.user, "hi".toList⟩, ⟨Role.assistant, "xz".toList⟩] ∧
    processLine demoParse demoStreamState "ta: B".toList = demoStreamState ∧
    processLine demoParse demoStreamState "data: trunc".toList = demoStreamState ∧
    processLine demoParse demoStreamState "data: S".toList =
      { demoStreamState with sources := ["s1".toList] } ∧
    processLine demoParse demoStreamState "data: I".toList =
      { demoStreamState with activeConvId := some "c9".toList } := by
  have h := sse_stream_spec demoParse demoPage
    { stream := StreamResult.ok ["data: A\nda".toList, "ta: B\ndata: C".toList],
      fallback := none }
    ["data: A\nda".toList, "ta: B\ndata: C".toList]
  refine ⟨?_, ?_, ?_, ?_, ?_⟩
  · rw [h.1 (by decide) rfl]
    decide
  · exact h.2.1 demoStreamState "ta: B".toList (by decide)
  · exact h.2.2.1 demoStreamState "data: trunc".toList (by decide) (by decide)
  · exact h.2.2.2.1 demoStreamState "data: S".toList ["s1".toList] (by decide) (by decide)
  · exact h.2.2.2.2 demoStreamState "data: I".toList "c9".toList (by decide) (by decide)

/-- **C1**: whenever a send goes out and the stream fails — up front or
mid-read — exactly one synchronous fallback request is issued, with the
very same body (message, last-ten history, conversation id) as the
streaming request; its reply is appended as the assistant message, and the
fixed error text is appended instead exactly when the fallback also
fails.  On a stream read to completion no fallback request is issued. -/
theorem stream_fallback_spec (parse : SSEParser) (st : PageState) (env : SendEnv)
    (hguard : ¬(jsTrim st.input = [] ∨ st.loading = true)) :
    (∀ chunks, env.stream = StreamResult.ok chunks →
      (handleSend parse st env).fallbackRequest = none) ∧
    (∀ pc, env.stream = StreamResult.fail pc →
      (handleSend parse st env).streamRequest =
        some { message := st.input, history := lastTen st.messages,
               conversation_id := st.activeConvId } ∧
      (handleSend parse st env).fallbackRequest = (handleSend parse st env).streamRequest ∧
      (∀ r, env.fallback = some r →
        (handleSend parse st env).final.messages =
          (st.messages ++ [⟨Role.user, st.input⟩]) ++ [⟨Role.assistant, r.reply⟩]) ∧
      (env.fallback = none →
        (handleSend parse st env).final.messages =
          (st.messages ++ [⟨Role.user, st.input⟩]) ++ [⟨Role.assistant, errorText⟩])) := by
  constructor
  · intro chunks hs
    unfold handleSend
    rw [if_neg hguard, hs]
  · intro pc hs
    unfold handleSend
    rw [if_neg hguard, hs]
    dsimp only
    cases hf : env.fallback with
    | some r =>
      dsimp only
      refine ⟨rfl, rfl, ?_, ?_⟩
      · intro r' hr'
        obtain rfl := Option.some.inj hr'
        rfl
      · intro hnone
        simp at hnone
    | none =>
      dsimp only
      refine ⟨rfl, rfl, ?_, ?_⟩
      · intro r' hr'
        simp at hr'
      · intro _
        rfl

/-- **C1** (witness): the fallback spec applied to the page about to send
`"hi"`, for a failed stream with a succeeding fallback (the reply `"ok"`
is appended), a failed stream with a failing fallback (the fixed error
text is appended), and a completed stream (no fallback request). -/
theorem stream_fallback_spec_witness :
    (handleSend demoParse demoPage
        { stream := StreamResult.fail [],
          fallback := some { reply := "ok".toList, sources := some [],
                             conversation_id := some "c1".toList } }).streamRequest =
      some { message := "hi".toList, history := lastTen ([] : List CopilotMessage),
             conversation_id := none } ∧
    (handleSend demoParse demoPage
        { stream := StreamResult.fail [],
          fallback := some { reply := "ok".toList, sources := some [],
                             conversation_id := some "c1".toList } }).final.messages =
      [⟨Role.user, "hi".toList⟩, ⟨Role.assistant, "ok".toList⟩] ∧
    (handleSend demoParse demoPage
        { stream := StreamResult.fail ["data: A".toList], fallback := none }).final.messages =
      [⟨Role.user, "hi".toList⟩, ⟨Role.assistant, errorText⟩] ∧
    (handleSend demoParse demoPage
        { stream := StreamResult.ok [], fallback := none }).fallbackRequest = none := by
  have h1 := stream_fallback_spec demoParse demoPage
    { stream := StreamResult.fail [],
      fallback := some { reply := "ok".toList, sources := some [],
                         conversation_id := some "c1".toList } } (by decide)
  have h2 := stream_fallback_spec demoParse demoPage
    { stream := StreamResult.fail ["data: A".toList], fallback := none } (by decide)
  have h3 := stream_fallback_spec demoParse demoPage
    { stream := StreamResult.ok [], fallback := none } (by decide)
  refine ⟨?_, ?_, ?_, ?_⟩
  · exact (h1.2 [] rfl).1
  · rw [(h1.2 [] rfl).2.2.1 _ rfl]
    decide
  · rw [(h2.2 ["data: A".toList] rfl).2.2.2 rfl]
    decide
  · exact h3.1 [] rfl

/-- **C9**: when the trimmed input is empty or a send is in flight,
`handleSend` issues no request and leaves the state unchanged; any request
it does issue (streaming or fallback) carries the pre-send input and
conversation id and a history that is `messages.slice(-10)` — a suffix of
the prior messages, in original order, of length at most 10. -/
theorem handleSend_history_spec (parse : SSEParser) (st : PageState) (env : SendEnv) :
    ((jsTrim st.input = [] ∨ st.loading = true) →
      handleSend parse st env =
        { streamRequest := none, fallbackRequest := none, final := st }) ∧
    (∀ req, (handleSend parse st env).streamRequest = some req ∨
        (handleSend parse st env).fallbackRequest = some req →
      req.message = st.input ∧
      req.conversation_id = st.activeConvId ∧
      req.history = lastTen st.messages ∧
      req.history.length ≤ 10 ∧
      req.history.IsSuffix st.messages) := by
  constructor
  · intro h
    unfold handleSend
    rw [if_pos h]
  · intro req hreq
    have hbase : req =
        { message := st.input, history := lastTen st.messages,
          conversation_id := st.activeConvId } := by
      by_cases hguard : jsTrim st.input = [] ∨ st.loading = true
      · unfold handleSend at hreq
        rw [if_pos hguard] at hreq
        dsimp only at hreq
        rcases hreq with h | h <;> cases h
      · unfold handleSend at hreq
        rw [if_neg hguard] at hreq
        dsimp only at hreq
        cases hs : env.stream with
        | ok chunks =>
          rw [hs] at hreq
          dsimp only at hreq
          rcases hreq with h | h
          · exact (Option.some.inj h).symm
          · cases h
        | fail pc =>
          rw [hs] at hreq
          dsimp only at hreq
          cases hf : env.fallback with
          | some r =>
            rw [hf] at hreq
            dsimp only at hreq
            rcases hreq with h | h <;> exact (Option.some.inj h).symm
          | none =>
            rw [hf] at hreq
            dsimp only at hreq
            rcases hreq with h | h <;> exact (Option.some.inj h).symm
    subst hbase
    refine ⟨rfl, rfl, rfl, ?_, ?_⟩
    · simp only [lastTen, List.length_drop]
      omega
    · exact List.drop_suffix _ _

/-- **C9** (witness): the history spec applied to a whitespace-only input
(no request, state unchanged) and to a send with twelve prior messages
(the issued request's history is the last ten of them). -/
theorem handleSend_history_spec_witness :
    handleSend demoParse
        { messages := msgs12, input := "  ".toList, loading := false, streaming := false,
          sources := [], activeConvId := none }
        { stream := StreamResult.ok [], fallback := none } =
      { streamRequest := none, fallbackRequest := none,
        final := { messages := msgs12, input := "  ".toList, loading := false,
                   streaming := false, sources := [], activeConvId := none } } ∧
    ({ message := "go".toList, history := lastTen msgs12, conversation_id := none } :
        ChatRequest).history = lastTen msgs12 ∧
    (lastTen msgs12).length ≤ 10 ∧
    (lastTen msgs12).IsSuffix msgs12 := by
  have h1 := (handleSend_history_spec demoParse
    { messages := msgs12, input := "  ".toList, loading := false, streaming := false,
      sources := [], activeConvId := none }
    { stream := StreamResult.ok [], fallback := none }).1 (by decide)
  have h2 := (handleSend_history_spec demoParse
    { messages := msgs12, input := "go".toList, loading := false, streaming := false,
      sources := [], activeConvId := none }
    { stream := StreamResult.ok [], fallback := none }).2
    { message := "go".toList, history := lastTen msgs12, conversation_id := none }
    (Or.inl (by decide))
  exact ⟨h1, h2.2.2.1 ▸ rfl, h2.2.2.2.1, h2.2.2.2.2⟩

end TtsCrAgent
